import Mathlib

/-!
Shallow embedding of the warehouse robot-fleet system.

Source files embedded here:
- `RaspberryPI.py`: the robot agent (MQTT `on_message` assignment handler,
  `publish_status`, `scan_qr_success`, and the `fsm_loop` state machine).
- `Backend.py` (with the `warehouse.db` schema from `database.py`): the
  orchestrator variant with `handle_robot_status`, `handle_robot_event`
  and the `/tasks/create` endpoint.
- `FlaskBackend.py` (schema `warehouse1.db`): the second orchestrator
  variant with its MQTT `on_message` status consumer, `/tasks/create`
  and `/tasks/<id>/update` endpoints.

Databases are embedded as lists of rows; a SQL `UPDATE ... WHERE c`
becomes a `List.map` that rewrites exactly the rows satisfying `c`
(guards of the surrounding Python `if` are kept as the outer condition).
Timestamps (`CURRENT_TIMESTAMP` / `datetime.now()`) are an explicit
`now : Nat` parameter.  `data.get(k, d)` on a JSON payload becomes an
`Option` field read with `Option.getD d`; `data.get(k)` stays `Option`.
Python truthiness of an optional integer (`if data.get("task_id"):`)
is `pyTruthyNat`.
-/

namespace Warehouse

/-- Python truthiness of an optional integer: `None` and `0` are falsy. -/
def pyTruthyNat : Option Nat → Bool
  | none => false
  | some n => n != 0

/-! ## Robot agent (`RaspberryPI.py`) -/

/-- `class FSMState(Enum)` of `RaspberryPI.py`. -/
inductive FSMState where
  | IDLE
  | FOLLOW_LINE
  | AT_TARGET
  | SCAN_QR
  | ALIGN
  | PICK_SIM
  | DELIVER
  | DROP_SIM
  | ERROR
  deriving DecidableEq, Repr

/-- The task payload delivered on `warehouse/tasks/assign`; `on_message`
reads `task_id` and `scan_qr_success` reads `container_id`. -/
structure AssignPayload where
  task_id : Nat
  container_id : Nat
  deriving DecidableEq, Repr

/-- The robot agent's mutable state: the globals `fsm_state` and
`current_task` plus the `robot_state` dict (`status`, `task_id`,
`battery`). -/
structure RobotState where
  fsm_state : FSMState
  current_task : Option AssignPayload
  status : String
  task_id : Option Nat
  battery : Nat
  deriving DecidableEq, Repr

/-- Initial robot state: `fsm_state = FSMState.IDLE`, `current_task = None`,
`robot_state = {"status": "idle", ..., "battery": 100, "task_id": None}`. -/
def robot_init : RobotState :=
  { fsm_state := FSMState.IDLE, current_task := none, status := "idle",
    task_id := none, battery := 100 }

/-- A Python runtime error raised by a handler. -/
inductive PyError where
  | typeError
  deriving DecidableEq, Repr

/-- `def publish_status():` declares no parameters. -/
def publish_status_paramCount : Nat := 0

/-- `on_message` calls `publish_status("TASK_RECEIVED")`: one positional
argument. -/
def on_message_statusCall_argCount : Nat := 1

/-- A message published on `warehouse/robot/status` by `publish_status`. -/
structure StatusPub where
  robot_id : Nat
  status : String
  fsm_state : FSMState
  battery : Nat
  deriving DecidableEq, Repr

/-- `ROBOT_ID = 1`. -/
def ROBOT_ID : Nat := 1

/-- The snapshot `publish_status` would publish from a given state. -/
def mk_status_msg (s : RobotState) : StatusPub :=
  { robot_id := ROBOT_ID, status := s.status, fsm_state := s.fsm_state,
    battery := s.battery }

/-- `on_message` of `RaspberryPI.py` (task assignment handler): returns the
new robot state, the runtime error (if any) escaping the handler, and the
status messages actually published.  If the robot is not `IDLE` the message
is dropped.  Otherwise the handler mutates `current_task`,
`robot_state["task_id"]`, `robot_state["status"]` and `fsm_state`, then
calls `publish_status` with one positional argument; since `publish_status`
takes none, that call raises `TypeError` when the argument count differs
from the parameter count, so nothing is published on this path. -/
def robot_on_message (s : RobotState) (data : AssignPayload) :
    RobotState × Option PyError × List StatusPub :=
  if s.fsm_state ≠ FSMState.IDLE then
    (s, none, [])
  else
    let s1 : RobotState :=
      { s with current_task := some data, task_id := some data.task_id,
               status := "busy", fsm_state := FSMState.FOLLOW_LINE }
    if on_message_statusCall_argCount = publish_status_paramCount then
      (s1, none, [mk_status_msg s1])
    else
      (s1, some PyError.typeError, [])

/-- Outcome of one QR confirmation attempt (the perception boundary:
`attemptMatch(expectedId, timeout)`). -/
inductive ScanOutcome where
  | Matched
  | Mismatched
  | TimedOut
  | Cancelled
  deriving DecidableEq, Repr

/-- The boolean result of the camera loop in `scan_qr_success` for a given
perception outcome: only a matching QR within the timeout returns `True`;
a mismatching QR keeps the loop scanning until the timeout, so
`Mismatched`, `TimedOut` and `Cancelled` (the `Q` key) all end in `False`. -/
def scan_outcome_success : ScanOutcome → Bool
  | ScanOutcome.Matched => true
  | ScanOutcome.Mismatched => false
  | ScanOutcome.TimedOut => false
  | ScanOutcome.Cancelled => false

/-- `scan_qr_success` of `RaspberryPI.py`: returns `False` immediately when
`current_task` is `None` (`"No container_id in task"`), otherwise the
result of the scan attempt. -/
def scan_qr_success (ct : Option AssignPayload) (o : ScanOutcome) : Bool :=
  match ct with
  | none => false
  | some _ => scan_outcome_success o

/-- The inputs one `fsm_loop` iteration can consume: the
`wide_black_detected` flag set by the Arduino listener, and the perception
outcome used if the iteration runs a QR scan. -/
structure LoopEnv where
  wide_black : Bool
  scan : ScanOutcome
  deriving DecidableEq, Repr

/-- One iteration of `fsm_loop` of `RaspberryPI.py`: returns the new robot
state, the Arduino commands sent (`send_cmd`), and the events published
(`publish_event`) by the iteration's own branch.  Note that the
`DROP_SIM` branch resets `robot_state["status"]` and
`robot_state["task_id"]` but not the global `current_task`, and the
`ERROR` branch resets nothing but `fsm_state`. -/
def fsm_loop_step (s : RobotState) (e : LoopEnv) :
    RobotState × List String × List String :=
  match s.fsm_state with
  | FSMState.IDLE => (s, ["S"], [])
  | FSMState.FOLLOW_LINE =>
      if e.wide_black then
        ({ s with fsm_state := FSMState.AT_TARGET }, ["LF"], ["FOLLOWING_LINE"])
      else
        (s, ["LF"], ["FOLLOWING_LINE"])
  | FSMState.AT_TARGET =>
      ({ s with fsm_state := FSMState.SCAN_QR }, ["S"], ["TARGET_REACHED"])
  | FSMState.SCAN_QR =>
      if scan_qr_success s.current_task e.scan then
        ({ s with fsm_state := FSMState.ALIGN }, [], ["QR_CONFIRMED"])
      else
        ({ s with fsm_state := FSMState.ERROR }, [], ["QR_FAILED"])
  | FSMState.ALIGN =>
      ({ s with fsm_state := FSMState.PICK_SIM }, ["ALIGN"], ["ALIGNED"])
  | FSMState.PICK_SIM =>
      ({ s with fsm_state := FSMState.DELIVER },
       ["LED_RED_ON", "BUZZER_ON", "BUZZER_OFF"], ["PICK_COMPLETED"])
  | FSMState.DELIVER =>
      if e.wide_black then
        ({ s with fsm_state := FSMState.DROP_SIM }, ["LF"], ["DELIVERING"])
      else
        (s, ["LF"], ["DELIVERING"])
  | FSMState.DROP_SIM =>
      ({ s with status := "idle", task_id := none, fsm_state := FSMState.IDLE },
       ["LED_GREEN_ON", "BUZZER_ON", "BUZZER_OFF", "LED_GREEN_OFF"],
       ["DROP_COMPLETED"])
  | FSMState.ERROR =>
      ({ s with fsm_state := FSMState.IDLE }, ["S"], ["ERROR"])

/-- One input consumed by the robot agent: either an MQTT assignment
delivery (handled by `on_message`) or one `fsm_loop` iteration. -/
inductive RobotInput where
  | assignMsg (data : AssignPayload)
  | loopTick (e : LoopEnv)
  deriving DecidableEq, Repr

/-- The state reached after consuming one input. -/
def robot_step (s : RobotState) (i : RobotInput) : RobotState :=
  match i with
  | RobotInput.assignMsg d => (robot_on_message s d).1
  | RobotInput.loopTick e => (fsm_loop_step s e).1

/-- The state reached after consuming a list of inputs. -/
def robot_run : RobotState → List RobotInput → RobotState
  | s, [] => s
  | s, i :: rest => robot_run (robot_step s i) rest

/-- The sequence of FSM states visited while consuming a list of inputs
(including the initial and final states). -/
def robot_fsm_trace : RobotState → List RobotInput → List FSMState
  | s, [] => [s.fsm_state]
  | s, i :: rest => s.fsm_state :: robot_fsm_trace (robot_step s i) rest

/-- The transition table of spec section 4.2, written from the
specification's words (the refinement comparand for the code's FSM):
IDLE accepts an assignment into FOLLOW_LINE and otherwise holds;
assignments received in any other state are dropped; FOLLOW_LINE and
DELIVER advance on a wide-marker detection; AT_TARGET, ALIGN, PICK_SIM,
DROP_SIM and ERROR advance unconditionally; SCAN_QR goes to ALIGN on
`Matched` and to ERROR on `Mismatched`, `TimedOut` or `Cancelled`. -/
def spec_table_next (q : FSMState) (i : RobotInput) : FSMState :=
  match i with
  | RobotInput.assignMsg _ =>
      if q = FSMState.IDLE then FSMState.FOLLOW_LINE else q
  | RobotInput.loopTick e =>
      match q with
      | FSMState.IDLE => FSMState.IDLE
      | FSMState.FOLLOW_LINE =>
          if e.wide_black then FSMState.AT_TARGET else FSMState.FOLLOW_LINE
      | FSMState.AT_TARGET => FSMState.SCAN_QR
      | FSMState.SCAN_QR =>
          match e.scan with
          | ScanOutcome.Matched => FSMState.ALIGN
          | ScanOutcome.Mismatched => FSMState.ERROR
          | ScanOutcome.TimedOut => FSMState.ERROR
          | ScanOutcome.Cancelled => FSMState.ERROR
      | FSMState.ALIGN => FSMState.PICK_SIM
      | FSMState.PICK_SIM => FSMState.DELIVER
      | FSMState.DELIVER =>
          if e.wide_black then FSMState.DROP_SIM else FSMState.DELIVER
      | FSMState.DROP_SIM => FSMState.IDLE
      | FSMState.ERROR => FSMState.IDLE

/-- The state sequence prescribed by the spec's table for a list of inputs. -/
def spec_table_trace : FSMState → List RobotInput → List FSMState
  | q, [] => [q]
  | q, i :: rest => q :: spec_table_trace (spec_table_next q i) rest

/-- A two-robot fleet: two independent robot agents running the same code. -/
structure Fleet where
  r1 : RobotState
  r2 : RobotState
  deriving DecidableEq, Repr

/-- MQTT broadcast of one assignment on `warehouse/tasks/assign`: both
subscribed robots run `on_message` on the same payload. -/
def broadcast_assign (w : Fleet) (d : AssignPayload) : Fleet :=
  { r1 := (robot_on_message w.r1 d).1, r2 := (robot_on_message w.r2 d).1 }

/-! ## Orchestrator variant 1: `Backend.py` over `warehouse.db`
(schema from `database.py`) -/

/-- A row of the `tasks` table of `warehouse.db`: defaults
`status 'pending'`, `current_step 'WAITING'`, `assigned_robot` nullable. -/
structure BTaskRow where
  task_id : Nat
  container_id : Option Nat
  action : String
  source_rack : Option String
  destination_rack : Option String
  status : String
  current_step : Option String
  assigned_robot : Option Nat
  created_at : Nat
  completed_at : Option Nat
  deriving DecidableEq, Repr

/-- A row of the `robots` table of `warehouse.db`. -/
structure BRobotRow where
  robot_id : Nat
  name : String
  status : String
  fsm_state : String
  battery : Nat
  last_seen : Nat
  deriving DecidableEq, Repr

/-- A row of the `logs` table of `warehouse.db`. -/
structure BLogRow where
  robot_id : Option Nat
  task_id : Option Nat
  event : Option String
  details : String
  deriving DecidableEq, Repr

/-- The `warehouse.db` database state used by `Backend.py`. -/
structure BackendDB where
  robots : List BRobotRow
  tasks : List BTaskRow
  logs : List BLogRow
  deriving DecidableEq, Repr

/-- A payload on `warehouse/robot/status` as read by `handle_robot_status`. -/
structure BStatusMsg where
  robot_id : Option Nat
  status : Option String
  fsm_state : Option String
  battery : Option Nat
  deriving DecidableEq, Repr

/-- `handle_robot_status` of `Backend.py`: a bare SQL `UPDATE robots ...
WHERE robot_id=?` — rows whose `robot_id` matches are rewritten with the
reported fields and `last_seen = CURRENT_TIMESTAMP`; no row is ever
inserted, so an unknown `robot_id` matches nothing and the message has no
effect. -/
def handle_robot_status (db : BackendDB) (data : BStatusMsg) (now : Nat) :
    BackendDB :=
  { db with robots := db.robots.map (fun r =>
      if some r.robot_id = data.robot_id then
        { r with status := data.status.getD "idle",
                 fsm_state := data.fsm_state.getD "IDLE",
                 battery := data.battery.getD 100,
                 last_seen := now }
      else r) }

/-- A payload on `warehouse/robot/events` as read by `handle_robot_event`. -/
structure BEventMsg where
  robot_id : Option Nat
  task_id : Option Nat
  event : Option String
  details : String
  deriving DecidableEq, Repr

/-- The row rewrite of `UPDATE tasks SET current_step=? WHERE task_id=?`. -/
def bevent_step_upd (data : BEventMsg) (t : BTaskRow) : BTaskRow :=
  if some t.task_id = data.task_id then { t with current_step := data.event }
  else t

/-- The row rewrite of `UPDATE tasks SET status='completed',
completed_at=CURRENT_TIMESTAMP WHERE task_id=?`. -/
def bevent_complete_upd (data : BEventMsg) (now : Nat) (t : BTaskRow) :
    BTaskRow :=
  if some t.task_id = data.task_id then
    { t with status := "completed", completed_at := some now }
  else t

/-- `handle_robot_event` of `Backend.py`: appends a log row; if
`data.get("task_id")` is truthy, sets that task's `current_step` to the
event tag; if the event tag equals `"DROP_COMPLETED"`, marks that task
completed with `completed_at = CURRENT_TIMESTAMP` (unconditionally — even
if the task is already completed). -/
def handle_robot_event (db : BackendDB) (data : BEventMsg) (now : Nat) :
    BackendDB :=
  let db1 : BackendDB :=
    { db with logs := db.logs ++
        [{ robot_id := data.robot_id, task_id := data.task_id,
           event := data.event, details := data.details }] }
  let db2 : BackendDB :=
    if pyTruthyNat data.task_id then
      { db1 with tasks := db1.tasks.map (bevent_step_upd data) }
    else db1
  if data.event = some "DROP_COMPLETED" then
    { db2 with tasks := db2.tasks.map (bevent_complete_upd data now) }
  else db2

/-- `SELECT * FROM tasks ORDER BY task_id DESC LIMIT 1`: the row with the
greatest `task_id` (rows have distinct autoincremented ids). -/
def latest_by_id {α : Type} (idOf : α → Nat) : List α → Option α
  | [] => none
  | t :: ts =>
      match latest_by_id idOf ts with
      | none => some t
      | some m => if idOf t < idOf m then some m else some t

/-- SQLite autoincrement for `task_id`: one more than the greatest id used. -/
def next_task_id {α : Type} (idOf : α → Nat) (ts : List α) : Nat :=
  (ts.map idOf).foldr Nat.max 0 + 1

/-- The body of a `POST /tasks/create` request to `Backend.py`
(`container_id` and `action` are required keys). -/
structure BCreateReq where
  container_id : Nat
  action : String
  source_rack : Option String
  destination_rack : Option String
  deriving DecidableEq, Repr

/-- A message published by `Backend.py` on the assignment topic. -/
structure PubMsg where
  topic : String
  task : BTaskRow
  deriving DecidableEq, Repr

/-- `TOPIC_TASK_ASSIGN = "warehouse/tasks/assign"`. -/
def TOPIC_TASK_ASSIGN : String := "warehouse/tasks/assign"

/-- The row `create_task` of `Backend.py` inserts for a given request:
the `INSERT` supplies `container_id`, `action`, `source_rack` and
`destination_rack`; the schema defaults supply `status 'pending'`,
`current_step 'WAITING'`, `assigned_robot NULL` and `completed_at NULL`. -/
def backend_new_row (db : BackendDB) (req : BCreateReq) (now : Nat) :
    BTaskRow :=
  { task_id := next_task_id (fun t => t.task_id) db.tasks,
    container_id := some req.container_id, action := req.action,
    source_rack := req.source_rack,
    destination_rack := req.destination_rack, status := "pending",
    current_step := some "WAITING", assigned_robot := none,
    created_at := now, completed_at := none }

/-- `create_task` of `Backend.py`: inserts the new task row, re-reads the
newest task, publishes it on `TOPIC_TASK_ASSIGN`, and returns it. -/
def backend_create_task (db : BackendDB) (req : BCreateReq) (now : Nat) :
    BackendDB × Option BTaskRow × List PubMsg :=
  let row : BTaskRow := backend_new_row db req now
  let db1 : BackendDB := { db with tasks := db.tasks ++ [row] }
  let task := latest_by_id (fun t => t.task_id) db1.tasks
  (db1, task,
   match task with
   | some t => [{ topic := TOPIC_TASK_ASSIGN, task := t }]
   | none => [])

/-! ## Orchestrator variant 2: `FlaskBackend.py` over `warehouse1.db` -/

/-- A row of the `robots` table of `warehouse1.db`. -/
structure FRobotRow where
  robot_id : Nat
  name : String
  status : String
  battery : Nat
  x_pos : Int
  y_pos : Int
  last_updated : Nat
  deriving DecidableEq, Repr

/-- A row of the `tasks` table of `warehouse1.db`. -/
structure FTaskRow where
  task_id : Nat
  container_id : Option Nat
  action : String
  priority : Nat
  status : Option String
  assigned_robot : Option Nat
  created_at : Nat
  completed_at : Option Nat
  deriving DecidableEq, Repr

/-- A row of the `logs` table of `warehouse1.db`. -/
structure FLogRow where
  robot_id : Option Nat
  task_id : Option Nat
  message : String
  timestamp : Nat
  deriving DecidableEq, Repr

/-- The `warehouse1.db` database state used by `FlaskBackend.py`. -/
structure FlaskDB where
  robots : List FRobotRow
  tasks : List FTaskRow
  logs : List FLogRow
  deriving DecidableEq, Repr

/-- A payload on `warehouse/robot/status` as read by the `on_message`
status branch of `FlaskBackend.py`. -/
structure FStatusMsg where
  robot_id : Option Nat
  status : Option String
  battery : Option Nat
  x_pos : Option Int
  y_pos : Option Int
  task_id : Option Nat
  event : Option String
  deriving DecidableEq, Repr

/-- Python's `f"Robot-{robot_id:02d}"` zero-pads to two digits. -/
def pad2 (n : Nat) : String :=
  if n < 10 then "0" ++ toString n else toString n

/-- The row rewrite of `UPDATE tasks SET status='completed',
completed_at=? WHERE task_id=?` in the status consumer. -/
def fstatus_complete_upd (data : FStatusMsg) (now : Nat) (t : FTaskRow) :
    FTaskRow :=
  if some t.task_id = data.task_id then
    { t with status := some "completed", completed_at := some now }
  else t

/-- The `on_message` status branch of `FlaskBackend.py`: reads the payload
fields with defaults, updates the robot row if one exists, otherwise
inserts a new row named `f"Robot-{robot_id:02d}"` (when `robot_id` is
`None`, that f-string raises `TypeError`, which the surrounding
`except` swallows, leaving the database untouched); then, if `task_id`
is truthy and the reported status is `"completed"`, marks that task
completed; finally logs a `QR_CONFIRMED` event if present. -/
def flask_on_status (db : FlaskDB) (data : FStatusMsg) (now : Nat) :
    FlaskDB :=
  let status := data.status.getD "idle"
  let battery := data.battery.getD 100
  let x := data.x_pos.getD 0
  let y := data.y_pos.getD 0
  let existing := db.robots.any (fun r => some r.robot_id == data.robot_id)
  let db1opt : Option FlaskDB :=
    if existing then
      some { db with robots := db.robots.map (fun r =>
        if some r.robot_id = data.robot_id then
          { r with status := status, battery := battery, x_pos := x,
                   y_pos := y, last_updated := now }
        else r) }
    else
      match data.robot_id with
      | some rid =>
          some { db with robots := db.robots ++
            [{ robot_id := rid, name := "Robot-" ++ pad2 rid,
               status := status, battery := battery, x_pos := x, y_pos := y,
               last_updated := now }] }
      | none => none
  match db1opt with
  | none => db
  | some db1 =>
      let db2 : FlaskDB :=
        if pyTruthyNat data.task_id ∧ status = "completed" then
          { db1 with tasks := db1.tasks.map (fstatus_complete_upd data now) }
        else db1
      if data.event = some "QR_CONFIRMED" then
        { db2 with logs := db2.logs ++
            [{ robot_id := data.robot_id, task_id := data.task_id,
               message := "QR Code confirmed", timestamp := now }] }
      else db2

/-- The body of a `POST /tasks/create` request to `FlaskBackend.py`. -/
structure FCreateReq where
  container_id : Nat
  action : Option String
  priority : Option Nat
  deriving DecidableEq, Repr

/-- A message published by `FlaskBackend.py` on the tasks topic. -/
structure FPubMsg where
  topic : String
  task : FTaskRow
  deriving DecidableEq, Repr

/-- `TOPIC_TASKS = "warehouse/tasks"`. -/
def TOPIC_TASKS : String := "warehouse/tasks"

/-- The row `create_task` of `FlaskBackend.py` inserts for a request: the
`INSERT` writes `status 'pending'` explicitly and applies the request
defaults `action 'Pick'` and `priority 1`. -/
def flask_new_row (db : FlaskDB) (req : FCreateReq) (now : Nat) :
    FTaskRow :=
  { task_id := next_task_id (fun t => t.task_id) db.tasks,
    container_id := some req.container_id,
    action := req.action.getD "Pick", priority := req.priority.getD 1,
    status := some "pending", assigned_robot := none, created_at := now,
    completed_at := none }

/-- `create_task` of `FlaskBackend.py`: inserts the new task row with
explicit `status 'pending'`, re-reads the newest task, publishes it on
`TOPIC_TASKS`, and returns it. -/
def flask_create_task (db : FlaskDB) (req : FCreateReq) (now : Nat) :
    FlaskDB × Option FTaskRow × List FPubMsg :=
  let row : FTaskRow := flask_new_row db req now
  let db1 : FlaskDB := { db with tasks := db.tasks ++ [row] }
  let task := latest_by_id (fun t => t.task_id) db1.tasks
  (db1, task,
   match task with
   | some t => [{ topic := TOPIC_TASKS, task := t }]
   | none => [])

/-- `update_task` of `FlaskBackend.py` (`PUT /tasks/<task_id>/update`):
writes whatever status the request supplies, with no validation and no
monotonicity check; a status of `"completed"` additionally stamps
`completed_at`. -/
def flask_update_task (db : FlaskDB) (tid : Nat) (st : Option String)
    (now : Nat) : FlaskDB :=
  if st = some "completed" then
    { db with tasks := db.tasks.map (fun t =>
        if t.task_id = tid then { t with status := st, completed_at := some now }
        else t) }
  else
    { db with tasks := db.tasks.map (fun t =>
        if t.task_id = tid then { t with status := st } else t) }

/-! ## Row lookup helpers -/

/-- The status of the task with the given id, if the row exists. -/
def task_status_of (ts : List FTaskRow) (tid : Nat) :
    Option (Option String) :=
  (ts.find? (fun t => t.task_id == tid)).map (fun t => t.status)

/-- The status of the `Backend.py` task with the given id, if it exists. -/
def btask_status_of (ts : List BTaskRow) (tid : Nat) : Option String :=
  (ts.find? (fun t => t.task_id == tid)).map (fun t => t.status)

/-- The `completed_at` of the `Backend.py` task with the given id. -/
def btask_completed_at (ts : List BTaskRow) (tid : Nat) :
    Option (Option Nat) :=
  (ts.find? (fun t => t.task_id == tid)).map (fun t => t.completed_at)

/-! ## Concrete example values -/

/-- A concrete assignment payload: task 1 for container 1001. -/
def assignExample : AssignPayload := { task_id := 1, container_id := 1001 }

/-- A robot mid-task: not idle. -/
def busyExample : RobotState :=
  { fsm_state := FSMState.FOLLOW_LINE, current_task := some assignExample,
    status := "busy", task_id := some 1, battery := 100 }

/-- Two robots, both in the initial idle state. -/
def fleet0 : Fleet := { r1 := robot_init, r2 := robot_init }

/-- An input sequence driving the robot through a perception failure:
assignment, wide marker, arrival step, QR timeout, error backoff. -/
def c7_inputs : List RobotInput :=
  [RobotInput.assignMsg assignExample,
   RobotInput.loopTick { wide_black := true, scan := ScanOutcome.Matched },
   RobotInput.loopTick { wide_black := false, scan := ScanOutcome.Matched },
   RobotInput.loopTick { wide_black := false, scan := ScanOutcome.TimedOut },
   RobotInput.loopTick { wide_black := false, scan := ScanOutcome.Matched }]

/-! ## Claim C5 -/

/-- Claim C5: an assignment message delivered to a robot whose `fsm_state`
is not `IDLE` leaves the entire robot state unchanged — `fsm_state`,
`current_task`, status and `task_id` exactly as before — raises nothing,
publishes nothing, and queues nothing. -/
theorem C5_busy_reject (s : RobotState) (d : AssignPayload)
    (h : s.fsm_state ≠ FSMState.IDLE) :
    robot_on_message s d = (s, none, []) := by
  simp [robot_on_message, h]

/-- Witness for C5 at a concrete busy robot. -/
theorem C5_witness :
    busyExample.fsm_state ≠ FSMState.IDLE ∧
    robot_on_message busyExample assignExample = (busyExample, none, []) :=
  ⟨by decide, C5_busy_reject busyExample assignExample (by decide)⟩

/-! ## Claim C10 -/

/-- Claim C10: an assignment accepted while `fsm_state = IDLE` mutates
`current_task`, `task_id`, status and `fsm_state` (to `FOLLOW_LINE`) and
then calls `publish_status` with one positional argument against its
zero-parameter definition, so the handler always raises `TypeError` after
the mutations and the acceptance-time status publish never executes. -/
theorem C10_accept_path_raises (s : RobotState) (d : AssignPayload)
    (h : s.fsm_state = FSMState.IDLE) :
    robot_on_message s d =
      ({ s with current_task := some d, task_id := some d.task_id,
                status := "busy", fsm_state := FSMState.FOLLOW_LINE },
       some PyError.typeError, []) := by
  simp [robot_on_message, h, on_message_statusCall_argCount,
        publish_status_paramCount]

/-- Witness for C10 at the initial idle robot. -/
theorem C10_witness :
    robot_init.fsm_state = FSMState.IDLE ∧
    robot_on_message robot_init assignExample =
      ({ robot_init with current_task := some assignExample,
                         task_id := some 1, status := "busy",
                         fsm_state := FSMState.FOLLOW_LINE },
       some PyError.typeError, []) :=
  ⟨rfl, C10_accept_path_raises robot_init assignExample rfl⟩

/-! ## Claim C1 -/

/-- Counterexample to C1: two robots both idle, one assignment broadcast
delivered to each — it is false that exactly one flips to busy with the
task while the other stays idle with no current task (in fact both
accept). -/
theorem C1_counterexample :
    ¬ (((broadcast_assign fleet0 assignExample).r1.status = "busy" ∧
        (broadcast_assign fleet0 assignExample).r1.current_task
          = some assignExample ∧
        (broadcast_assign fleet0 assignExample).r2.status = "idle" ∧
        (broadcast_assign fleet0 assignExample).r2.current_task = none) ∨
       ((broadcast_assign fleet0 assignExample).r2.status = "busy" ∧
        (broadcast_assign fleet0 assignExample).r2.current_task
          = some assignExample ∧
        (broadcast_assign fleet0 assignExample).r1.status = "idle" ∧
        (broadcast_assign fleet0 assignExample).r1.current_task = none)) := by
  decide

/-- Amended C1: when two robots are both idle and the assignment broadcast
is delivered to each, both robots flip to busy holding the same task —
the broadcast-plus-self-filter design enforces no at-most-one guarantee. -/
theorem C1_both_idle_robots_accept (w : Fleet) (d : AssignPayload)
    (h1 : w.r1.fsm_state = FSMState.IDLE)
    (h2 : w.r2.fsm_state = FSMState.IDLE) :
    (broadcast_assign w d).r1.status = "busy" ∧
    (broadcast_assign w d).r1.current_task = some d ∧
    (broadcast_assign w d).r2.status = "busy" ∧
    (broadcast_assign w d).r2.current_task = some d := by
  simp [broadcast_assign, robot_on_message, h1, h2,
        on_message_statusCall_argCount, publish_status_paramCount]

/-- Witness for amended C1 at the two-idle-robot fleet. -/
theorem C1_witness :
    fleet0.r1.fsm_state = FSMState.IDLE ∧
    fleet0.r2.fsm_state = FSMState.IDLE ∧
    ((broadcast_assign fleet0 assignExample).r1.status = "busy" ∧
     (broadcast_assign fleet0 assignExample).r1.current_task
       = some assignExample ∧
     (broadcast_assign fleet0 assignExample).r2.status = "busy" ∧
     (broadcast_assign fleet0 assignExample).r2.current_task
       = some assignExample) :=
  ⟨rfl, rfl, C1_both_idle_robots_accept fleet0 assignExample rfl rfl⟩

/-! ## Claim C7 -/

/-- Counterexample to C7: after assignment, wide marker, arrival, QR
timeout and the ERROR backoff, the robot is back at `fsm_state = IDLE`
yet `current_task` is still non-null and status is still `"busy"` —
refuting the claimed invariant. -/
theorem C7_counterexample :
    (robot_run robot_init c7_inputs).fsm_state = FSMState.IDLE ∧
    (robot_run robot_init c7_inputs).current_task ≠ none ∧
    (robot_run robot_init c7_inputs).status ≠ "idle" := by
  decide

/-- Amended C7: accepting an assignment from idle does set a non-null
`current_task`, status `"busy"` and a non-idle `fsm_state`; but the
`DROP_SIM → IDLE` transition resets status and `task_id` without clearing
`current_task`, and the `ERROR → IDLE` transition changes only
`fsm_state` — so `fsm_state = IDLE` does not imply `current_task` is
null, and status `"busy"` can persist into idle after an error. -/
theorem C7_invariant_partial :
    (∀ (s : RobotState) (d : AssignPayload), s.fsm_state = FSMState.IDLE →
       (robot_on_message s d).1.current_task = some d ∧
       (robot_on_message s d).1.status = "busy" ∧
       (robot_on_message s d).1.fsm_state = FSMState.FOLLOW_LINE) ∧
    (∀ (s : RobotState) (e : LoopEnv), s.fsm_state = FSMState.DROP_SIM →
       (fsm_loop_step s e).1 =
         { s with status := "idle", task_id := none,
                  fsm_state := FSMState.IDLE }) ∧
    (∀ (s : RobotState) (e : LoopEnv), s.fsm_state = FSMState.ERROR →
       (fsm_loop_step s e).1 = { s with fsm_state := FSMState.IDLE }) := by
  refine ⟨?_, ?_, ?_⟩
  · intro s d h
    simp [robot_on_message, h, on_message_statusCall_argCount,
          publish_status_paramCount]
  · intro s e h
    simp [fsm_loop_step, h]
  · intro s e h
    simp [fsm_loop_step, h]

/-- Witness for amended C7: the `ERROR → IDLE` step at a concrete errored
robot changes only `fsm_state`. -/
theorem C7_witness :
    ({ busyExample with fsm_state := FSMState.ERROR } : RobotState).fsm_state
      = FSMState.ERROR ∧
    (fsm_loop_step { busyExample with fsm_state := FSMState.ERROR }
        { wide_black := false, scan := ScanOutcome.Matched }).1
      = { busyExample with fsm_state := FSMState.IDLE } :=
  ⟨rfl,
   C7_invariant_partial.2.2 { busyExample with fsm_state := FSMState.ERROR }
     { wide_black := false, scan := ScanOutcome.Matched } rfl⟩

/-! ## Claim C6 -/

/-- No `fsm_loop` branch writes the global `current_task`. -/
theorem fsm_loop_keeps_task (s : RobotState) (e : LoopEnv) :
    ((fsm_loop_step s e).1).current_task = s.current_task := by
  obtain ⟨f, ct, st, ti, b⟩ := s
  cases f <;> simp [fsm_loop_step] <;> split <;> rfl

/-- Task-holding invariant of the robot agent: outside `IDLE` a task is
always held (assignment acceptance is the only entry into `FOLLOW_LINE`
and it sets `current_task`, which no loop branch ever clears). -/
def robot_taskInv (s : RobotState) : Prop :=
  s.fsm_state = FSMState.IDLE ∨ s.current_task.isSome = true

/-- Under the task-holding invariant, one step of the code's FSM lands in
exactly the state the spec's section 4.2 table prescribes. -/
theorem robot_step_matches_table (s : RobotState) (i : RobotInput)
    (h : robot_taskInv s) :
    (robot_step s i).fsm_state = spec_table_next s.fsm_state i := by
  obtain ⟨f, ct, st, ti, b⟩ := s
  cases i with
  | assignMsg d =>
      cases f <;>
        simp [robot_step, robot_on_message, spec_table_next,
              on_message_statusCall_argCount, publish_status_paramCount]
  | loopTick e =>
      obtain ⟨w, sc⟩ := e
      cases f with
      | IDLE => simp [robot_step, fsm_loop_step, spec_table_next]
      | FOLLOW_LINE =>
          cases w <;> simp [robot_step, fsm_loop_step, spec_table_next]
      | AT_TARGET => simp [robot_step, fsm_loop_step, spec_table_next]
      | SCAN_QR =>
          rcases h with h | h
          · simp [robot_taskInv] at h
          · simp only [RobotState.current_task] at h
            obtain ⟨a, ha⟩ := Option.isSome_iff_exists.mp h
            subst ha
            cases sc <;>
              simp [robot_step, fsm_loop_step, spec_table_next,
                    scan_qr_success, scan_outcome_success]
      | ALIGN => simp [robot_step, fsm_loop_step, spec_table_next]
      | PICK_SIM => simp [robot_step, fsm_loop_step, spec_table_next]
      | DELIVER =>
          cases w <;> simp [robot_step, fsm_loop_step, spec_table_next]
      | DROP_SIM => simp [robot_step, fsm_loop_step, spec_table_next]
      | ERROR => simp [robot_step, fsm_loop_step, spec_table_next]

/-- The task-holding invariant is preserved by every robot step. -/
theorem robot_step_keeps_inv (s : RobotState) (i : RobotInput)
    (h : robot_taskInv s) : robot_taskInv (robot_step s i) := by
  cases i with
  | assignMsg d =>
      by_cases hf : s.fsm_state = FSMState.IDLE
      · right
        simp [robot_step, robot_on_message, hf,
              on_message_statusCall_argCount, publish_status_paramCount]
      · have : robot_on_message s d = (s, none, []) := by
          simp [robot_on_message, hf]
        simpa [robot_taskInv, robot_step, this] using h
  | loopTick e =>
      rcases h with h | h
      · left
        simp [robot_step, fsm_loop_step, h]
      · right
        rw [robot_step, fsm_loop_keeps_task]
        exact h

/-- Under the task-holding invariant, the whole visited state sequence of
the code equals the sequence the spec's table prescribes. -/
theorem robot_trace_matches_table (is : List RobotInput) :
    ∀ (s : RobotState), robot_taskInv s →
      robot_fsm_trace s is = spec_table_trace s.fsm_state is := by
  induction is with
  | nil => intro s _; rfl
  | cons i rest ih =>
      intro s h
      show s.fsm_state :: robot_fsm_trace (robot_step s i) rest
         = s.fsm_state :: spec_table_trace (spec_table_next s.fsm_state i) rest
      rw [ih (robot_step s i) (robot_step_keeps_inv s i h),
          robot_step_matches_table s i h]

/-- Claim C6: for every fixed sequence of assignment deliveries, wide-marker
notifications and perception outcomes, the robot FSM started in its
initial state visits exactly the state sequence defined by the spec's
section 4.2 table — no skipped or repeated non-loop states. -/
theorem C6_fsm_refines_table (is : List RobotInput) :
    robot_fsm_trace robot_init is = spec_table_trace FSMState.IDLE is :=
  robot_trace_matches_table is robot_init (Or.inl rfl)

/-! ## Row-rewrite facts shared by the orchestrator claims -/

/-- The `current_step` rewrite never changes a task's id. -/
theorem bevent_step_upd_id (data : BEventMsg) (t : BTaskRow) :
    (bevent_step_upd data t).task_id = t.task_id := by
  unfold bevent_step_upd; split <;> rfl

/-- The `current_step` rewrite never changes a task's status. -/
theorem bevent_step_upd_status (data : BEventMsg) (t : BTaskRow) :
    (bevent_step_upd data t).status = t.status := by
  unfold bevent_step_upd; split <;> rfl

/-- The completion rewrite never changes a task's id. -/
theorem bevent_complete_upd_id (data : BEventMsg) (now : Nat) (t : BTaskRow) :
    (bevent_complete_upd data now t).task_id = t.task_id := by
  unfold bevent_complete_upd; split <;> rfl

/-- The completion rewrite sets status `"completed"` on the matching task
and leaves every other task's status alone. -/
theorem bevent_complete_upd_status (data : BEventMsg) (now : Nat)
    (t : BTaskRow) :
    (bevent_complete_upd data now t).status =
      if some t.task_id = data.task_id then "completed" else t.status := by
  unfold bevent_complete_upd
  by_cases h : some t.task_id = data.task_id <;> simp [h]

/-- The Flask status-consumer completion rewrite never changes a task id. -/
theorem fstatus_complete_upd_id (data : FStatusMsg) (now : Nat)
    (t : FTaskRow) :
    (fstatus_complete_upd data now t).task_id = t.task_id := by
  unfold fstatus_complete_upd; split <;> rfl

/-- The Flask status-consumer completion rewrite sets status
`'completed'` on the matching task only. -/
theorem fstatus_complete_upd_status (data : FStatusMsg) (now : Nat)
    (t : FTaskRow) :
    (fstatus_complete_upd data now t).status =
      if some t.task_id = data.task_id then some "completed"
      else t.status := by
  unfold fstatus_complete_upd
  by_cases h : some t.task_id = data.task_id <;> simp [h]

/-- The task list produced by the Flask status consumer, for a message
that does carry a robot id: the completion rewrite runs exactly when
`task_id` is truthy and the reported status is `"completed"`. -/
theorem flask_on_status_tasks_of_rid (db : FlaskDB) (data : FStatusMsg)
    (now : Nat) (rid : Nat) (h : data.robot_id = some rid) :
    (flask_on_status db data now).tasks =
      if pyTruthyNat data.task_id = true ∧
          data.status.getD "idle" = "completed" then
        db.tasks.map (fstatus_complete_upd data now)
      else db.tasks := by
  by_cases hex : ∃ x ∈ db.robots, x.robot_id = rid <;>
  by_cases hc : (pyTruthyNat data.task_id = true ∧
      data.status.getD "idle" = "completed") <;>
  by_cases hqr : data.event = some "QR_CONFIRMED" <;>
    simp [flask_on_status, h, hex, hc, hqr]

/-- The Flask status consumer either leaves the task list unchanged or
applies the completion rewrite to every row. -/
theorem flask_on_status_tasks_cases (db : FlaskDB) (data : FStatusMsg)
    (now : Nat) :
    (flask_on_status db data now).tasks = db.tasks ∨
    (flask_on_status db data now).tasks
      = db.tasks.map (fstatus_complete_upd data now) := by
  cases hrid : data.robot_id with
  | none =>
      left
      by_cases hc : (pyTruthyNat data.task_id = true ∧
          data.status.getD "idle" = "completed") <;>
      by_cases hqr : data.event = some "QR_CONFIRMED" <;>
        simp [flask_on_status, hrid, hc, hqr]
  | some rid =>
      rw [flask_on_status_tasks_of_rid db data now rid hrid]
      split
      · right; rfl
      · left; rfl

/-! ## Claim C2 -/

/-- Counterexample to C2: a task whose status is `'completed'` is moved
back to `'pending'` by the task-update endpoint — a backward transition
the claim says is impossible. -/
def c2_db : FlaskDB :=
  { robots := [], logs := [],
    tasks := [{ task_id := 1, container_id := some 1001, action := "Pick",
                priority := 1, status := some "completed",
                assigned_robot := none, created_at := 0,
                completed_at := some 5 }] }

/-- Counterexample to C2: the task-update operation rewrites a
`'completed'` task back to `'pending'`, so the status walk
`Completed → Pending` is possible. -/
theorem C2_counterexample :
    task_status_of c2_db.tasks 1 = some (some "completed") ∧
    task_status_of (flask_update_task c2_db 1 (some "pending") 9).tasks 1
      = some (some "pending") := by
  decide

/-- Amended C2: the MQTT consumers only ever move a task's status to
`'completed'` (never backward), but the HTTP task-update endpoint writes
whatever status the request supplies, unconditionally — so monotonicity
holds for event and status consumption yet fails for task update. -/
theorem C2_monotone_only_in_consumers :
    (∀ (db : BackendDB) (data : BEventMsg) (now : Nat) (u : BTaskRow),
       u ∈ (handle_robot_event db data now).tasks →
       ∃ t ∈ db.tasks, u.task_id = t.task_id ∧
         (u.status = t.status ∨ u.status = "completed")) ∧
    (∀ (db : FlaskDB) (data : FStatusMsg) (now : Nat) (u : FTaskRow),
       u ∈ (flask_on_status db data now).tasks →
       ∃ t ∈ db.tasks, u.task_id = t.task_id ∧
         (u.status = t.status ∨ u.status = some "completed")) ∧
    (∀ (db : FlaskDB) (tid : Nat) (st : Option String) (now : Nat)
       (u : FTaskRow),
       u ∈ (flask_update_task db tid st now).tasks →
       ∃ t ∈ db.tasks, u.task_id = t.task_id ∧
         (u.status = t.status ∨ u.status = st)) := by
  refine ⟨?_, ?_, ?_⟩
  · intro db data now u hu
    by_cases h2 : data.event = some "DROP_COMPLETED" <;>
      by_cases h1 : pyTruthyNat data.task_id = true
    · have hu' : u ∈ (db.tasks.map (bevent_step_upd data)).map
          (bevent_complete_upd data now) := by
        simpa [handle_robot_event, h1, h2] using hu
      rw [List.map_map] at hu'
      rcases List.mem_map.mp hu' with ⟨t, ht, rfl⟩
      refine ⟨t, ht, ?_, ?_⟩
      · simp [Function.comp_apply, bevent_complete_upd_id,
              bevent_step_upd_id]
      · simp only [Function.comp_apply, bevent_complete_upd_status,
                   bevent_step_upd_status, bevent_step_upd_id]
        split
        · right; rfl
        · left; rfl
    · have hu' : u ∈ db.tasks.map (bevent_complete_upd data now) := by
        simpa [handle_robot_event, h1, h2] using hu
      rcases List.mem_map.mp hu' with ⟨t, ht, rfl⟩
      refine ⟨t, ht, bevent_complete_upd_id data now t, ?_⟩
      rw [bevent_complete_upd_status]
      split
      · right; rfl
      · left; rfl
    · have hu' : u ∈ db.tasks.map (bevent_step_upd data) := by
        simpa [handle_robot_event, h1, h2] using hu
      rcases List.mem_map.mp hu' with ⟨t, ht, rfl⟩
      exact ⟨t, ht, bevent_step_upd_id data t,
             Or.inl (bevent_step_upd_status data t)⟩
    · have hu' : u ∈ db.tasks := by
        simpa [handle_robot_event, h1, h2] using hu
      exact ⟨u, hu', rfl, Or.inl rfl⟩
  · intro db data now u hu
    rcases flask_on_status_tasks_cases db data now with hcase | hcase
    · rw [hcase] at hu
      exact ⟨u, hu, rfl, Or.inl rfl⟩
    · rw [hcase] at hu
      rcases List.mem_map.mp hu with ⟨t, ht, rfl⟩
      refine ⟨t, ht, fstatus_complete_upd_id data now t, ?_⟩
      rw [fstatus_complete_upd_status]
      split
      · right; rfl
      · left; rfl
  · intro db tid st now u hu
    unfold flask_update_task at hu
    by_cases hst : st = some "completed"
    · subst hst
      rw [if_pos rfl] at hu
      rcases List.mem_map.mp hu with ⟨t, ht, rfl⟩
      refine ⟨t, ht, ?_, ?_⟩
      · split <;> rfl
      · split
        · right; rfl
        · left; rfl
    · rw [if_neg hst] at hu
      rcases List.mem_map.mp hu with ⟨t, ht, rfl⟩
      refine ⟨t, ht, ?_, ?_⟩
      · split <;> rfl
      · split
        · right; rfl
        · left; rfl

/-- The row the C2 witness exhibits: the task moved back to `'pending'`. -/
def c2w_row : FTaskRow :=
  { task_id := 1, container_id := some 1001, action := "Pick",
    priority := 1, status := some "pending", assigned_robot := none,
    created_at := 0, completed_at := some 5 }

/-- Witness for amended C2 at a concrete database and update request. -/
theorem C2_witness :
    c2w_row ∈ (flask_update_task c2_db 1 (some "pending") 9).tasks ∧
    ∃ t ∈ c2_db.tasks, c2w_row.task_id = t.task_id ∧
      (c2w_row.status = t.status ∨ c2w_row.status = some "pending") :=
  ⟨by decide,
   C2_monotone_only_in_consumers.2.2 c2_db 1 (some "pending") 9 c2w_row
     (by decide)⟩

/-! ## Claim C3 -/

/-- A Flask database with a registered robot and one pending task. -/
def c3_db : FlaskDB :=
  { robots := [{ robot_id := 1, name := "Robot-01", status := "idle",
                 battery := 100, x_pos := 0, y_pos := 0,
                 last_updated := 0 }],
    tasks := [{ task_id := 1, container_id := some 1001, action := "Pick",
                priority := 1, status := some "pending",
                assigned_robot := none, created_at := 0,
                completed_at := none }],
    logs := [] }

/-- A status message reporting robot status `"completed"` while holding
task 1 — no event tag at all. -/
def c3_msg : FStatusMsg :=
  { robot_id := some 1, status := some "completed", battery := some 100,
    x_pos := some 0, y_pos := some 0, task_id := some 1, event := none }

/-- Counterexample to C3: consuming a pure status message (robot status
`"completed"`, task id 1, no event) changes task 1 from `'pending'` to
`'completed'` in the Flask status consumer — a consumed status message
does change a task's status. -/
theorem C3_counterexample :
    task_status_of c3_db.tasks 1 = some (some "pending") ∧
    task_status_of (flask_on_status c3_db c3_msg 7).tasks 1
      = some (some "completed") := by
  decide

/-- Amended C3: in `Backend.py` a task's status changes exactly on a
`"DROP_COMPLETED"` event for its id and the status handler never touches
tasks; but in `FlaskBackend.py` a consumed status message whose reported
robot status is `"completed"` and whose task id is truthy also marks that
task completed. -/
theorem C3_completion_sources :
    (∀ (db : BackendDB) (data : BEventMsg) (now : Nat) (u : BTaskRow),
       u ∈ (handle_robot_event db data now).tasks →
       ∃ t ∈ db.tasks, u.task_id = t.task_id ∧
         u.status = (if data.event = some "DROP_COMPLETED" ∧
             some t.task_id = data.task_id then "completed"
           else t.status)) ∧
    (∀ (db : BackendDB) (data : BStatusMsg) (now : Nat),
       (handle_robot_status db data now).tasks = db.tasks) ∧
    (∀ (db : FlaskDB) (data : FStatusMsg) (now : Nat) (rid : Nat),
       data.robot_id = some rid →
       ∀ (u : FTaskRow), u ∈ (flask_on_status db data now).tasks →
       ∃ t ∈ db.tasks, u.task_id = t.task_id ∧
         u.status = (if pyTruthyNat data.task_id = true ∧
             data.status.getD "idle" = "completed" ∧
             some t.task_id = data.task_id then some "completed"
           else t.status)) := by
  refine ⟨?_, ?_, ?_⟩
  · intro db data now u hu
    by_cases h2 : data.event = some "DROP_COMPLETED" <;>
      by_cases h1 : pyTruthyNat data.task_id = true
    · have hu' : u ∈ (db.tasks.map (bevent_step_upd data)).map
          (bevent_complete_upd data now) := by
        simpa [handle_robot_event, h1, h2] using hu
      rw [List.map_map] at hu'
      rcases List.mem_map.mp hu' with ⟨t, ht, rfl⟩
      refine ⟨t, ht, ?_, ?_⟩
      · simp [Function.comp_apply, bevent_complete_upd_id,
              bevent_step_upd_id]
      · simp [Function.comp_apply, bevent_complete_upd_status,
              bevent_step_upd_status, bevent_step_upd_id, h2]
    · have hu' : u ∈ db.tasks.map (bevent_complete_upd data now) := by
        simpa [handle_robot_event, h1, h2] using hu
      rcases List.mem_map.mp hu' with ⟨t, ht, rfl⟩
      exact ⟨t, ht, bevent_complete_upd_id data now t,
             by simp [bevent_complete_upd_status, h2]⟩
    · have hu' : u ∈ db.tasks.map (bevent_step_upd data) := by
        simpa [handle_robot_event, h1, h2] using hu
      rcases List.mem_map.mp hu' with ⟨t, ht, rfl⟩
      exact ⟨t, ht, bevent_step_upd_id data t,
             by simp [bevent_step_upd_status, h2]⟩
    · have hu' : u ∈ db.tasks := by
        simpa [handle_robot_event, h1, h2] using hu
      exact ⟨u, hu', rfl, by simp [h2]⟩
  · intro db data now
    rfl
  · intro db data now rid hrid u hu
    rw [flask_on_status_tasks_of_rid db data now rid hrid] at hu
    by_cases hc : (pyTruthyNat data.task_id = true ∧
        data.status.getD "idle" = "completed")
    · rw [if_pos hc] at hu
      rcases List.mem_map.mp hu with ⟨t, ht, rfl⟩
      refine ⟨t, ht, fstatus_complete_upd_id data now t, ?_⟩
      rw [fstatus_complete_upd_status]
      by_cases hm : some t.task_id = data.task_id
      · simp [hm, hc.1, hc.2]
      · simp [hm]
    · rw [if_neg hc] at hu
      refine ⟨u, hu, rfl, ?_⟩
      have hneg : ¬ (pyTruthyNat data.task_id = true ∧
          data.status.getD "idle" = "completed" ∧
          some u.task_id = data.task_id) := by
        intro hall
        exact hc ⟨hall.1, hall.2.1⟩
      rw [if_neg hneg]

/-- The row the C3 witness exhibits: task 1 completed by a status message. -/
def c3w_row : FTaskRow :=
  { task_id := 1, container_id := some 1001, action := "Pick",
    priority := 1, status := some "completed", assigned_robot := none,
    created_at := 0, completed_at := some 7 }

/-- Witness for amended C3 at the concrete database and status message. -/
theorem C3_witness :
    c3_msg.robot_id = some 1 ∧
    c3w_row ∈ (flask_on_status c3_db c3_msg 7).tasks ∧
    ∃ t ∈ c3_db.tasks, c3w_row.task_id = t.task_id ∧
      c3w_row.status = (if pyTruthyNat c3_msg.task_id = true ∧
          c3_msg.status.getD "idle" = "completed" ∧
          some t.task_id = c3_msg.task_id then some "completed"
        else t.status) :=
  ⟨rfl, by decide,
   C3_completion_sources.2.2 c3_db c3_msg 7 1 rfl c3w_row (by decide)⟩

/-! ## Claim C4 -/

/-- A `warehouse.db` database with one pending task. -/
def c4_db : BackendDB :=
  { robots := [], logs := [],
    tasks := [{ task_id := 1, container_id := some 1001, action := "PICK",
                source_rack := none, destination_rack := none,
                status := "pending", current_step := some "WAITING",
                assigned_robot := none, created_at := 0,
                completed_at := none }] }

/-- The terminal event for task 1. -/
def c4_msg : BEventMsg :=
  { robot_id := some 1, task_id := some 1, event := some "DROP_COMPLETED",
    details := "" }

/-- Counterexample to C4: delivering the same `DROP_COMPLETED` event at
time 5 and again at time 9 leaves status `'completed'` but rewrites
`completed_at` from 5 to 9 — the replay is not a no-op. -/
theorem C4_counterexample :
    btask_completed_at (handle_robot_event c4_db c4_msg 5).tasks 1
      = some (some 5) ∧
    btask_status_of
      (handle_robot_event (handle_robot_event c4_db c4_msg 5) c4_msg 9).tasks
      1 = some "completed" ∧
    btask_completed_at
      (handle_robot_event (handle_robot_event c4_db c4_msg 5) c4_msg 9).tasks
      1 = some (some 9) := by
  decide

/-- Any task matching the event's id after a `DROP_COMPLETED` consumption
is completed with the consumption's own timestamp. -/
theorem mem_map_complete_upd (data : BEventMsg) (now2 : Nat)
    (L : List BTaskRow) (u : BTaskRow)
    (hu : u ∈ L.map (bevent_complete_upd data now2))
    (hid : some u.task_id = data.task_id) :
    u.status = "completed" ∧ u.completed_at = some now2 := by
  rcases List.mem_map.mp hu with ⟨t, ht, rfl⟩
  rw [bevent_complete_upd_id] at hid
  unfold bevent_complete_upd
  rw [if_pos hid]
  exact ⟨rfl, rfl⟩

/-- Amended C4: replaying a `DROP_COMPLETED` event for an
already-completed task leaves status `'completed'` but overwrites
`completed_at` with the replay's timestamp (`completed_at` is not
preserved). -/
theorem C4_replay_overwrites_completed_at (db : BackendDB)
    (data : BEventMsg) (now now2 : Nat)
    (hev : data.event = some "DROP_COMPLETED") (u : BTaskRow)
    (hu : u ∈ (handle_robot_event (handle_robot_event db data now)
        data now2).tasks)
    (hid : some u.task_id = data.task_id) :
    u.status = "completed" ∧ u.completed_at = some now2 := by
  by_cases h1 : pyTruthyNat data.task_id = true
  · have hu' : u ∈ ((handle_robot_event db data now).tasks.map
        (bevent_step_upd data)).map (bevent_complete_upd data now2) := by
      simpa [handle_robot_event, h1, hev] using hu
    exact mem_map_complete_upd data now2 _ u hu' hid
  · have hu' : u ∈ (handle_robot_event db data now).tasks.map
        (bevent_complete_upd data now2) := by
      simpa [handle_robot_event, h1, hev] using hu
    exact mem_map_complete_upd data now2 _ u hu' hid

/-- The row C4's witness exhibits: replay stamped `completed_at = 9`. -/
def c4w_row : BTaskRow :=
  { task_id := 1, container_id := some 1001, action := "PICK",
    source_rack := none, destination_rack := none, status := "completed",
    current_step := some "DROP_COMPLETED", assigned_robot := none,
    created_at := 0, completed_at := some 9 }

/-- Witness for amended C4 at the concrete database and event. -/
theorem C4_witness :
    c4_msg.event = some "DROP_COMPLETED" ∧
    c4w_row ∈
      (handle_robot_event (handle_robot_event c4_db c4_msg 5) c4_msg
        9).tasks ∧
    some c4w_row.task_id = c4_msg.task_id ∧
    (c4w_row.status = "completed" ∧ c4w_row.completed_at = some 9) :=
  ⟨rfl, by decide, rfl,
   C4_replay_overwrites_completed_at c4_db c4_msg 5 9 rfl c4w_row
     (by decide) rfl⟩

/-! ## Claim C8 -/

/-- Every element of a list has an id below the autoincremented next id. -/
theorem le_foldr_max (n : Nat) (l : List Nat) (h : n ∈ l) :
    n ≤ l.foldr Nat.max 0 := by
  induction l with
  | nil => cases h
  | cons a l ih =>
      rcases List.mem_cons.mp h with h | h
      · subst h; exact Nat.le_max_left _ _
      · exact Nat.le_trans (ih h) (Nat.le_max_right _ _)

/-- Every stored row's id is strictly below the next autoincrement id. -/
theorem mem_id_lt_next {α : Type} (idOf : α → Nat) (ts : List α) (t : α)
    (h : t ∈ ts) : idOf t < next_task_id idOf ts := by
  unfold next_task_id
  exact Nat.lt_succ_of_le (le_foldr_max _ _ (List.mem_map_of_mem idOf h))

/-- `ORDER BY task_id DESC LIMIT 1` returns a just-appended row whose id
exceeds every existing id. -/
theorem latest_by_id_append {α : Type} (idOf : α → Nat) (ts : List α)
    (row : α) (h : ∀ t ∈ ts, idOf t < idOf row) :
    latest_by_id idOf (ts ++ [row]) = some row := by
  induction ts with
  | nil => rfl
  | cons a ts ih =>
      have ha : idOf a < idOf row := h a (List.mem_cons_self a ts)
      have ih' := ih (fun t ht => h t (List.mem_cons_of_mem a ht))
      rw [List.cons_append]
      simp only [latest_by_id]
      rw [ih']
      simp [ha]

/-- Counterexample to C8: creating a task publishes one message
immediately, on the assignment topic — not zero messages. -/
theorem C8_counterexample :
    (backend_create_task { robots := [], tasks := [], logs := [] }
        { container_id := 1001, action := "PICK", source_rack := some "A1",
          destination_rack := some "B2" } 3).2.2 ≠ [] ∧
    ((backend_create_task { robots := [], tasks := [], logs := [] }
        { container_id := 1001, action := "PICK", source_rack := some "A1",
          destination_rack := some "B2" } 3).2.2).length = 1 := by
  decide

/-- Amended C8: for every valid request, create-task inserts a task with
status `'pending'` (no `Assigned` status, no `assigned_robot` ever
recorded) and returns that persisted task — but it also immediately
publishes exactly that task as an assignment message (`Backend.py` on the
assignment topic, `FlaskBackend.py` on the tasks topic); there is no
separate assignment step. -/
theorem C8_create_inserts_pending_and_publishes :
    (∀ (db : BackendDB) (req : BCreateReq) (now : Nat),
       (backend_create_task db req now).1.tasks
         = db.tasks ++ [backend_new_row db req now] ∧
       (backend_new_row db req now).status = "pending" ∧
       (backend_new_row db req now).assigned_robot = none ∧
       (backend_create_task db req now).2.1
         = some (backend_new_row db req now) ∧
       (backend_create_task db req now).2.2
         = [{ topic := TOPIC_TASK_ASSIGN,
              task := backend_new_row db req now }]) ∧
    (∀ (db : FlaskDB) (req : FCreateReq) (now : Nat),
       (flask_create_task db req now).1.tasks
         = db.tasks ++ [flask_new_row db req now] ∧
       (flask_new_row db req now).status = some "pending" ∧
       (flask_new_row db req now).assigned_robot = none ∧
       (flask_create_task db req now).2.1
         = some (flask_new_row db req now) ∧
       (flask_create_task db req now).2.2
         = [{ topic := TOPIC_TASKS, task := flask_new_row db req now }]) := by
  constructor
  · intro db req now
    have hlatest : latest_by_id (fun t : BTaskRow => t.task_id)
        (db.tasks ++ [backend_new_row db req now])
        = some (backend_new_row db req now) :=
      latest_by_id_append _ _ _ (fun t ht => mem_id_lt_next _ _ t ht)
    refine ⟨rfl, rfl, rfl, hlatest, ?_⟩
    simp only [backend_create_task]
    rw [hlatest]
  · intro db req now
    have hlatest : latest_by_id (fun t : FTaskRow => t.task_id)
        (db.tasks ++ [flask_new_row db req now])
        = some (flask_new_row db req now) :=
      latest_by_id_append _ _ _ (fun t ht => mem_id_lt_next _ _ t ht)
    refine ⟨rfl, rfl, rfl, hlatest, ?_⟩
    simp only [flask_create_task]
    rw [hlatest]

/-! ## Claim C9 -/

/-- A status message from an unregistered robot id 7. -/
def c9_msg : BStatusMsg :=
  { robot_id := some 7, status := some "busy",
    fsm_state := some "FOLLOW_LINE", battery := some 90 }

/-- Counterexample to C9: `Backend.py`'s status consumer is a bare SQL
`UPDATE`; consuming a status message for unknown robot id 7 leaves the
robots table empty — no row for that robot id exists afterwards. -/
theorem C9_counterexample :
    (handle_robot_status { robots := [], tasks := [], logs := [] } c9_msg
        4).robots = [] := by
  decide

/-- Amended C9: only `FlaskBackend.py`'s status consumer auto-registers an
unknown robot id, appending a row with the reported fields and a default
name; `Backend.py`'s `handle_robot_status` never creates a robot row (the
set of robot ids is unchanged by it), so there the message is a no-op for
unknown robots. -/
theorem C9_auto_register_flask_only :
    (∀ (db : FlaskDB) (data : FStatusMsg) (now : Nat) (rid : Nat),
       data.robot_id = some rid →
       ¬ (∃ x ∈ db.robots, x.robot_id = rid) →
       (flask_on_status db data now).robots = db.robots ++
         [{ robot_id := rid, name := "Robot-" ++ pad2 rid,
            status := data.status.getD "idle",
            battery := data.battery.getD 100,
            x_pos := data.x_pos.getD 0, y_pos := data.y_pos.getD 0,
            last_updated := now }]) ∧
    (∀ (db : BackendDB) (data : BStatusMsg) (now : Nat),
       (handle_robot_status db data now).robots.map (fun r => r.robot_id)
         = db.robots.map (fun r => r.robot_id)) := by
  constructor
  · intro db data now rid hrid hex
    by_cases hc : (pyTruthyNat data.task_id = true ∧
        data.status.getD "idle" = "completed") <;>
    by_cases hqr : data.event = some "QR_CONFIRMED" <;>
      simp [flask_on_status, hrid, hex, hc, hqr]
  · intro db data now
    have hrb : (handle_robot_status db data now).robots
        = db.robots.map (fun r =>
            if some r.robot_id = data.robot_id then
              { r with status := data.status.getD "idle",
                       fsm_state := data.fsm_state.getD "IDLE",
                       battery := data.battery.getD 100, last_seen := now }
            else r) := rfl
    rw [hrb, List.map_map]
    refine List.map_congr_left fun r _ => ?_
    simp only [Function.comp_apply]
    split <;> rfl

/-- Witness for amended C9: an empty Flask database auto-registers robot 7
with the reported status. -/
theorem C9_witness :
    ({ robot_id := some 7, status := some "busy", battery := some 90,
       x_pos := some 0, y_pos := some 0, task_id := none,
       event := none } : FStatusMsg).robot_id = some 7 ∧
    ¬ (∃ x ∈ ({ robots := [], tasks := [], logs := [] } : FlaskDB).robots,
        x.robot_id = 7) ∧
    (flask_on_status { robots := [], tasks := [], logs := [] }
        { robot_id := some 7, status := some "busy", battery := some 90,
          x_pos := some 0, y_pos := some 0, task_id := none,
          event := none } 4).robots =
      ({ robots := [], tasks := [], logs := [] } : FlaskDB).robots ++
        [{ robot_id := 7, name := "Robot-" ++ pad2 7, status := "busy",
           battery := 90, x_pos := 0, y_pos := 0, last_updated := 4 }] :=
  ⟨rfl, by simp,
   C9_auto_register_flask_only.1 { robots := [], tasks := [], logs := [] }
     { robot_id := some 7, status := some "busy", battery := some 90,
       x_pos := some 0, y_pos := some 0, task_id := none, event := none }
     4 7 rfl (by simp)⟩

end Warehouse
